import Mathlib

/-!
Verification development for the restmailer repository (iaas-store/restmailer).

The definitions below are a shallow embedding of the delivery pipeline:
the DoH MX resolver (src/utils.py, get_mx_server_address), the MIME builder
and DKIM step (src/mailer.py, build_mime_message / dkim_sign), the per-host
SMTP attempt (src/mailer.py, try_connect_server_and_send), the delivery
engine (src/mailer.py, api_send_message), the snapshotter hash gate
(src/configuration.py, Configuration._cleanup_runtime), the pydantic
send_timeout defaulting validator (src/structures.py), and the pydantic
model_dump used by the HTTP handler (src/http_handler.py).

Network and filesystem effects are abstracted into oracles: a ServerBehavior
record stands for what the SMTP conversation with one MX host does, a
DnsResponse record stands for the parsed JSON of one DoH query, and the
clock readings int(time.time()) taken by the engine are an input stream.
Exceptions in the Python code are modelled with Except / Option: a caught
exception becomes a branch, an uncaught one an Except.error result.
-/

/-- Entry of a RuntimeItem's event log (src/structures.py, RuntimeItemEvent):
source component and message text.  The wall-clock ts field the Python code
stores with each event is not modelled; no claim depends on it. -/
structure Event where
  source : String
  message : String
deriving DecidableEq

/-- Test whether the second character list starts with the first one. -/
def startsWithChars : List Char → List Char → Bool
  | [], _ => true
  | _ :: _, [] => false
  | a :: as, b :: bs => a == b && startsWithChars as bs

/-- Test whether a character list contains the needle as a contiguous run. -/
def hasRun (needle : List Char) : List Char → Bool
  | [] => needle.isEmpty
  | b :: bs => startsWithChars needle (b :: bs) || hasRun needle bs

/-- Python substring containment, needle in hay (also used for a single
character, as in the expression `' ' in s`). -/
def strContains (hay needle : String) : Bool :=
  hasRun needle.toList hay.toList

/-- Python s.strip with the dot character: remove leading and trailing
dots (src/utils.py line 23, answer['data'].strip('.')). -/
def pyStripDots (s : String) : String :=
  String.mk (((s.toList.dropWhile (· == '.')).reverse.dropWhile (· == '.')).reverse)

/-- Python s.split(sep) for a one-character separator: consecutive
separators yield empty fields and the result is never empty. -/
def splitChar (sep : Char) : List Char → List (List Char)
  | [] => [[]]
  | c :: rest =>
      match splitChar sep rest with
      | [] => [[]]
      | h :: t => if c = sep then [] :: h :: t else (c :: h) :: t

/-- Join character lists with a separator list, Python sep.join. -/
def joinWith (sep : List Char) : List (List Char) → List Char
  | [] => []
  | [x] => x
  | x :: y :: t => x ++ sep ++ joinWith sep (y :: t)

/-- Python s.split(sep) for a one-character separator, on strings. -/
def pySplit (s : String) (sep : Char) : List String :=
  (splitChar sep s.toList).map (fun l => String.mk l)

/-- Replace every CRLF pair by LF, scanning left to right without overlap,
as Python text.replace with those arguments does. -/
def replaceCrlf : List Char → List Char
  | '\r' :: '\n' :: rest => '\n' :: replaceCrlf rest
  | c :: rest => c :: replaceCrlf rest
  | [] => []

/-- CRLF normalisation of a text body (src/structures.py line 48):
replace CRLF by LF, split on LF, join with CRLF. -/
def crlfNormalize (s : String) : String :=
  String.mk (joinWith ['\r', '\n'] (splitChar '\n' (replaceCrlf s.toList)))

/-- Python ', '.join over a list of strings. -/
def joinComma : List String → String
  | [] => ""
  | [x] => x
  | x :: y :: t => x ++ ", " ++ joinComma (y :: t)

/-- Base-ten value of a nonempty run of ASCII digits; none otherwise. -/
def digitsToNat : List Char → Option Nat
  | [] => none
  | l =>
      if l.all Char.isDigit then
        some (l.foldl (fun acc c => acc * 10 + (c.toNat - 48)) 0)
      else none

/-- Python int() applied to a string: surrounding spaces are stripped, an
optional sign is allowed, then a nonempty digit run must follow; none
models the ValueError int() raises otherwise.  Underscore digit grouping
and non-space whitespace are not modelled; they cannot occur in the MX
data fields this is applied to. -/
def pyIntParse (s : String) : Option Int :=
  let t := ((s.toList.dropWhile (· == ' ')).reverse.dropWhile (· == ' ')).reverse
  match t with
  | '-' :: rest => (digitsToNat rest).map (fun n => -(n : Int))
  | '+' :: rest => (digitsToNat rest).map (fun n => (n : Int))
  | rest => (digitsToNat rest).map (fun n => (n : Int))

/-- First space-separated token of a string, Python x.split(' ')[0]. -/
def tok0 (s : String) : String :=
  (pySplit s ' ').headD ""

/-- Hostname extraction from a stripped MX data entry (src/utils.py line
25): the token after the first space when a space is present, the entry
itself otherwise. -/
def extractHost (s : String) : String :=
  if strContains s " " then (pySplit s ' ').getD 1 "" else s

/-- One entry of the DoH JSON Answer array; only the fields the resolver
reads are modelled. -/
structure DnsAnswer where
  type : Int
  data : String
deriving DecidableEq

/-- Parsed JSON of one DoH query to https://dns.google/resolve.  The
answer field is none when the JSON has no Answer key, in which case the
subscription in the Python code raises KeyError and the broad except
returns the empty list. -/
structure DnsResponse where
  status : Int
  answer : Option (List DnsAnswer)
deriving DecidableEq

/-- Sort key of one stripped MX data entry, Python int(x.split(' ')[0]);
total only after the parse of every entry has been checked. -/
def mxKeyVal (s : String) : Int :=
  (pyIntParse (tok0 s)).getD 0

/-- Comparison used to sort MX entries ascending by numeric preference. -/
def mxLe (a b : String) : Prop :=
  mxKeyVal a ≤ mxKeyVal b

instance : DecidableRel mxLe := fun a b => Int.decLe _ _

instance : IsTotal String mxLe := ⟨fun a b => Int.le_total _ _⟩

instance : IsTrans String mxLe := ⟨fun _ _ _ => Int.le_trans⟩

/-- Embedding of get_mx_server_address (src/utils.py lines 8-31) applied
to the parsed DoH response.  The HTTP GET itself is abstracted into the
DnsResponse argument.  Python computes the sort keys with
int(x.split(' ')[0]) for every kept entry; if any of those int() calls
raises ValueError the broad except handler returns the empty list, which
the all-keys-parse guard reproduces.  The insertion sort is stable and
ascending, as Python sorted is. -/
def get_mx_server_address (res : DnsResponse) : List String :=
  if res.status = 0 then
    match res.answer with
    | none => []
    | some answers =>
        let datas := (answers.filter (fun a => a.type = 15)).map (fun a => pyStripDots a.data)
        if datas.all (fun s => (pyIntParse (tok0 s)).isSome) then
          (List.insertionSort mxLe datas).map extractHost
        else []
  else []

/-- Tagged body part of a MailMessage (src/structures.py): a text part or
a base64 attachment. -/
inductive MailPart where
  | text (text subtype charset : String)
  | attachment (name contentType contentB64 : String)
deriving DecidableEq

/-- MIME object tree.  textObj carries the CRLF-normalised body of a
MIMEText; fileObj carries a MIMEBase attachment (payload kept in its
base64 source form: the decode and re-encode performed by the Python
property is a representation change no claim depends on); multipartMixed
is a MIMEMultipart container. -/
inductive MimeObj where
  | textObj (content subtype charset : String)
  | fileObj (maintype subtype contentB64 name : String)
  | multipartMixed (parts : List MimeObj)

/-- Python content_type.split('/', 1).  A content type without a slash
makes the Python unpacking raise ValueError; that startup-time validation
gap is outside every claim, the model returns an empty subtype there. -/
def splitContentType (ct : String) : String × String :=
  match splitChar '/' ct.toList with
  | [] => ("", "")
  | [m] => (String.mk m, "")
  | m :: rest => (String.mk m, String.mk (joinWith ['/'] rest))

/-- mime_object property of a body part (src/structures.py lines 23-53). -/
def MailPart.mimeObject : MailPart → MimeObj
  | .text t st ch => .textObj (crlfNormalize t) st ch
  | .attachment n ct b => .fileObj (splitContentType ct).1 (splitContentType ct).2 b n

/-- Normalised MailMessage as the engine consumes it (src/structures.py,
MailMessage after validation). -/
structure MailMsg where
  guid : String
  fromUser : String
  fromName : String
  addressTo : String
  subject : String
  data : List MailPart
  sendTimeout : Int
  ignoreStarttlsCert : Bool
deriving DecidableEq

/-- Per-job record owned by the registry (src/structures.py, RuntimeItem). -/
structure RuntimeItem where
  message : MailMsg
  tsAdded : Int
  state : String
  events : List Event
deriving DecidableEq

/-- RuntimeItem.log: append one event to the job's event log. -/
def RuntimeItem.log (it : RuntimeItem) (source msg : String) : RuntimeItem :=
  { it with events := it.events ++ [Event.mk source msg] }

/-- Mail configuration slice the MIME builder reads, plus the DKIM oracle:
none models dkim_key_path unset; some (Except.ok sig) models dkim.sign
returning the signature value sig (already stripped of its leading
DKIM-Signature label, src/mailer.py line 26); some (Except.error e)
models dkim.sign or the key file read raising, with e the rendered
exception text str(e). -/
structure ConfModel where
  mailDomain : String
  serverName : String
  dkim : Option (Except String String)

/-- Embedding of build_mime_message (src/mailer.py lines 28-64).  The
strftime rendering of ts_added is passed in as dateStr, and the
encoded-word and formataddr renderings of Subject and From keep their
inputs in concatenated form; no claim depends on those renderings.
Returns the built message and the events the function logs to the job. -/
def build_mime_message (conf : ConfModel) (mail : MailMsg) (dateStr : String) :
    (MimeObj × List (String × String)) × List Event :=
  let obj :=
    match mail.data with
    | [MailPart.text t st ch] => MailPart.mimeObject (MailPart.text t st ch)
    | parts => MimeObj.multipartMixed (parts.map MailPart.mimeObject)
  let received :=
    "by iaasstore/restmailer via API; id " ++ mail.guid ++ " for <" ++
      mail.addressTo ++ ">; " ++ dateStr
  let baseHeaders :=
    [("Received", received),
     ("Message-Id", "<" ++ mail.guid ++ "@" ++ conf.serverName ++ ">"),
     ("Date", dateStr),
     ("Subject", mail.subject),
     ("From", mail.fromName ++ " <" ++ mail.fromUser ++ "@" ++ conf.mailDomain ++ ">"),
     ("To", mail.addressTo)]
  match conf.dkim with
  | none => ((obj, baseHeaders), [])
  | some (Except.ok sig) =>
      ((obj, baseHeaders ++ [("DKIM-Signature", sig)]),
       [Event.mk "mailer-dkim" ("sign generated, length=" ++ toString sig.length)])
  | some (Except.error e) =>
      ((obj, baseHeaders), [Event.mk "mailer-dkim" ("sign generation error: " ++ e)])

/-- Number of headers with the given name in a built message. -/
def countHeader (headers : List (String × String)) (name : String) : Nat :=
  (headers.filter (fun h => h.1 == name)).length

/-- Oracle for the SMTP conversation one call of
try_connect_server_and_send has with one MX host.  A some value in an
Err field is the rendered text of the exception that step raises (the
Python logs interpolate both str(e) and e.args; the oracle string stands
for that whole rendering).  ehloStatus is ehlo_status.decode().
sendResult is the per-recipient failure map smtplib returns from
send_message: recipient, code, response text. -/
structure ServerBehavior where
  connectErr : Option String
  ehloErr : Option String
  ehloStatus : String
  tlsErr : Option String
  tlsCode : Int
  tlsStatus : String
  sendErr : Option String
  sendResult : List (String × Int × String)
deriving DecidableEq

/-- One entry of json.dumps applied to the failure map. -/
def failureEntry (f : String × Int × String) : String :=
  "\"" ++ f.1 ++ "\": [" ++ toString f.2.1 ++ ", \"" ++ f.2.2 ++ "\"]"

/-- json.dumps of the per-recipient failure map (string keys, (code, text)
tuple values); JSON string escaping is not modelled. -/
def failuresJson (fs : List (String × Int × String)) : String :=
  "\x7b" ++ joinComma (fs.map failureEntry) ++ "\x7d"

/-- Tail of try_connect_server_and_send from the send_message call on
(src/mailer.py lines 120-145): a raised send error is caught and logged
with advance-to-next; an empty failure map is success; a nonempty one is
logged as mail have some errors on send and is terminal. -/
def sendPhase (beh : ServerBehavior) (mxHost : String) (now tsAdded : Int)
    (evs : List Event) : List Event × Except String (Bool × Bool) :=
  match beh.sendErr with
  | some e =>
      (evs ++ [Event.mk "smtp" ("[" ++ mxHost ++ "] send mail error " ++ e)],
       Except.ok (false, true))
  | none =>
      if beh.sendResult.isEmpty then
        (evs ++ [Event.mk "smtp"
            ("[" ++ mxHost ++ "] mail sended successfully in " ++
              toString (now - tsAdded) ++ "s")],
         Except.ok (true, false))
      else
        (evs ++ [Event.mk "smtp"
            ("[" ++ mxHost ++ "] mail have some errors on send: " ++
              failuresJson beh.sendResult)],
         Except.ok (false, false))

/-- Embedding of try_connect_server_and_send (src/mailer.py lines 67-145)
against the behaviour oracle of one MX host.  Returns the events the call
logs and either Except.ok (status, try_with_another_mx) or Except.error e
when an exception escapes the function: the server.ehlo call on line 96
is outside every try block, so an exception it raises is not caught. -/
def try_connect_server_and_send (proxyConfigured : Bool) (beh : ServerBehavior)
    (mxHost : String) (now tsAdded : Int) : List Event × Except String (Bool × Bool) :=
  let ev0 : List Event :=
    if proxyConfigured then
      [Event.mk "smtp" ("[" ++ mxHost ++ "] using proxy from configuration for smtp connection")]
    else []
  match beh.connectErr with
  | some e =>
      (ev0 ++ [Event.mk "smtp" ("[" ++ mxHost ++ "] cannot connect to mx server " ++ e)],
       Except.ok (false, true))
  | none =>
      match beh.ehloErr with
      | some e => (ev0, Except.error e)
      | none =>
          if strContains beh.ehloStatus "STARTTLS" then
            let evA := ev0 ++
              [Event.mk "smtp-tls" ("[" ++ mxHost ++ "] STARTTLS is available, trying upgrade")]
            match beh.tlsErr with
            | some e =>
                (evA ++ [Event.mk "smtp-tls" ("[" ++ mxHost ++ "] exception on tls upgrade: " ++ e)],
                 Except.ok (false, true))
            | none =>
                sendPhase beh mxHost now tsAdded (evA ++
                  [Event.mk "smtp-tls"
                    ("[" ++ mxHost ++ "] " ++ toString beh.tlsCode ++ ", " ++ beh.tlsStatus)])
          else
            sendPhase beh mxHost now tsAdded ev0

/-- The behaviour reaches the nonempty-failure-map return of
try_connect_server_and_send: connect succeeds, ehlo does not raise, a
STARTTLS upgrade (when advertised) does not raise, send_message does not
raise, and the failure map is nonempty. -/
def reachesRefusal (beh : ServerBehavior) : Bool :=
  beh.connectErr.isNone && beh.ehloErr.isNone &&
    (!(strContains beh.ehloStatus "STARTTLS") || beh.tlsErr.isNone) &&
    beh.sendErr.isNone && !beh.sendResult.isEmpty

/-- Oracles the delivery loop consumes: whether mail.proxy is configured,
the SMTP behaviour of the host tried at each attempt index, and the
int(time.time()) reading taken during attempt i (used both in the success
log and in the deadline check that follows the attempt). -/
structure DeliveryEnv where
  proxyConfigured : Bool
  behave : Nat → ServerBehavior
  timeAt : Nat → Int

/-- Instrumentation record of one completed iteration of the MX loop:
host tried, the (status, try_again) pair the attempt returned, and
whether the deadline check after the attempt fired. -/
structure AttemptRecord where
  host : String
  sent : Bool
  tryAgain : Bool
  timedOut : Bool
deriving DecidableEq

/-- The while loop of api_send_message (src/mailer.py lines 165-185).
mx_servers.remove(current_mx_server) always removes index 0 since
current_mx_server is mx_servers[0], so the loop walks the list in order;
the recursion reproduces that.  Returns the events logged during the
loop, the attempt records, and Except.ok message_sended, or Except.error
when an attempt raised an uncaught exception (in which case the raising
attempt is recorded with sent and try_again false). -/
def send_loop (env : DeliveryEnv) (sendTimeout tsAdded : Int) :
    List String → Nat → List Event × List AttemptRecord × Except String Bool
  | [], _ => ([], [], Except.ok false)
  | mx :: rest, i =>
      let tc := try_connect_server_and_send env.proxyConfigured (env.behave i) mx (env.timeAt i) tsAdded
      let evHead : List Event := Event.mk "mailer" ("try mx server for send " ++ mx) :: tc.1
      match tc.2 with
      | Except.error e => (evHead, [AttemptRecord.mk mx false false false], Except.error e)
      | Except.ok sr =>
          if sr.1 = true then
            (evHead, [AttemptRecord.mk mx sr.1 sr.2 false], Except.ok true)
          else if env.timeAt i - tsAdded > sendTimeout then
            (evHead ++ [Event.mk "mailer" "message send timeout reached"],
             [AttemptRecord.mk mx sr.1 sr.2 true], Except.ok false)
          else if sr.2 = false then
            (evHead, [AttemptRecord.mk mx sr.1 sr.2 false], Except.ok false)
          else
            let next := send_loop env sendTimeout tsAdded rest (i + 1)
            (evHead ++ next.1, AttemptRecord.mk mx sr.1 sr.2 false :: next.2.1, next.2.2)

/-- Embedding of api_send_message (src/mailer.py lines 148-195).  The DoH
query is abstracted into dns, the SMTP conversations and clock readings
into env, the strftime rendering into dateStr.  address_to is validated
as EmailStr upstream, so it contains an @ and the domain split cannot
raise.  Returns the updated RuntimeItem, the attempt records, and
Except.ok of the returned boolean, or Except.error when an uncaught
exception escapes the loop (before any state write). -/
def api_send_message (env : DeliveryEnv) (conf : ConfModel) (dns : DnsResponse)
    (mail : MailMsg) (dateStr : String) (item : RuntimeItem) :
    RuntimeItem × List AttemptRecord × Except String Bool :=
  let domain := (pySplit mail.addressTo '@').getD 1 ""
  let mxServers := get_mx_server_address dns
  if mxServers = [] then
    (item.log "mailer" ("cannot get mx servers for: " ++ domain), [], Except.ok false)
  else
    let item1 := item.log "mailer" ("mx servers for target_address: " ++ joinComma mxServers)
    let built := build_mime_message conf mail dateStr
    let item2 := { item1 with events := item1.events ++ built.2 }
    let looped := send_loop env mail.sendTimeout item.tsAdded mxServers 0
    match looped.2.2 with
    | Except.error e =>
        ({ item2 with events := item2.events ++ looped.1 }, looped.2.1, Except.error e)
    | Except.ok true =>
        ({ item2 with events := item2.events ++ looped.1, state := "sended" },
         looped.2.1, Except.ok true)
    | Except.ok false =>
        ({ item2 with
            events := item2.events ++ looped.1 ++
              [Event.mk "mailer" "cannot send message: all mx servers is down or timeout reached"],
            state := "error" },
         looped.2.1, Except.ok false)

/-- JSON tree as produced by pydantic model_dump in json mode. -/
inductive Json where
  | jstr (s : String)
  | jnum (n : Int)
  | jbool (b : Bool)
  | jarr (xs : List Json)
  | jobj (fields : List (String × Json))

/-- model_dump of one body part. -/
def dumpPart : MailPart → Json
  | .text t st ch =>
      .jobj [("type", .jstr "text"), ("text", .jstr t),
             ("subtype", .jstr st), ("charset", .jstr ch)]
  | .attachment n ct b =>
      .jobj [("type", .jstr "attachment"), ("name", .jstr n),
             ("content_type", .jstr ct), ("content_b64", .jstr b)]

/-- model_dump of a MailMessage. -/
def dumpMailMsg (m : MailMsg) : Json :=
  .jobj [("guid", .jstr m.guid), ("from_user", .jstr m.fromUser),
         ("from_name", .jstr m.fromName), ("address_to", .jstr m.addressTo),
         ("subject", .jstr m.subject), ("data", .jarr (m.data.map dumpPart)),
         ("send_timeout", .jnum m.sendTimeout),
         ("ignore_starttls_cert", .jbool m.ignoreStarttlsCert)]

/-- model_dump of one event-log entry (the ts field is not modelled). -/
def dumpEvent (e : Event) : Json :=
  .jobj [("source", .jstr e.source), ("message", .jstr e.message)]

/-- model_dump(mode='json', exclude=set) of a RuntimeItem.  Pydantic
applies a set-form exclude to the model's own top-level field names only;
it does not descend into nested models, so the exclude list filters the
four RuntimeItem fields and nothing below them. -/
def runtimeItemModelDump (it : RuntimeItem) (exclude : List String) : Json :=
  .jobj (([("message", dumpMailMsg it.message), ("ts_added", .jnum it.tsAdded),
           ("state", .jstr it.state),
           ("events", .jarr (it.events.map dumpEvent))]).filter
           (fun f => !(exclude.contains f.1)))

/-- Response body built by do_GET for /message/guid and by do_POST for
/message/send and /message/async-send (src/http_handler.py lines 78-81,
142-147): rtdata.model_dump(mode='json', exclude set of content_b64). -/
def messageResponseBody (it : RuntimeItem) : Json :=
  runtimeItemModelDump it ["content_b64"]

/-- Field lookup in a JSON object; none on other node kinds. -/
def jsonGet (j : Json) (k : String) : Option Json :=
  match j with
  | .jobj fs => (fs.find? (fun f => f.1 == k)).map (fun f => f.2)
  | _ => none

/-- Element lookup in a JSON array; none on other node kinds. -/
def jsonIndex (j : Json) (i : Nat) : Option Json :=
  match j with
  | .jarr xs => xs.get? i
  | _ => none

/-- Hash-gated write decisions of Configuration._cleanup_runtime
(src/configuration.py lines 121-134).  The serialized registry content at
each 10-second tick is an input (registry mutation between ticks,
including the eviction branch that fires above the 50 GiB ceiling, is
what produces the next tick's content); hash abstracts the hex SHA-256
digest.  rt_save writes the snapshot file only when runtime_file_path is
set, hence the pathSet conjunct.  The recorded hash is updated on every
tick whether or not a write happened. -/
def cleanup_runtime_writes (pathSet : Bool) (hash : String → String) :
    Option String → List String → List Bool
  | _, [] => []
  | last, rt :: rest =>
      (decide (last ≠ some (hash rt)) && pathSet) ::
        cleanup_runtime_writes pathSet hash (some (hash rt)) rest

/-- Mail configuration slice read by the send_timeout validator. -/
structure MailConfiguration where
  def_mail_send_timeout : Int
deriving DecidableEq

/-- Default send timeout drawn from the validation context: the
configured mail.def_mail_send_timeout, or 30 when the validator runs
without a configuration context. -/
def defSendTimeout : Option MailConfiguration → Int
  | some c => c.def_mail_send_timeout
  | none => 30

/-- Embedding of the validator
MailMessage.using_def_send_timeout_if_not_set (src/structures.py lines
110-117).  The Python guard is the truthiness test if send_timeout:, so
both None and 0 fall through to the default. -/
def using_def_send_timeout_if_not_set (sendTimeout : Option Int)
    (conf : Option MailConfiguration) : Int :=
  match sendTimeout with
  | some t => if t = 0 then defSendTimeout conf else t
  | none => defSendTimeout conf

/-- Shared sample message: one recipient at example.com, no body parts. -/
def mailA : MailMsg :=
  MailMsg.mk "g1" "alice" "Alice" "bob@example.com" "hello" [] 30 false

/-- Shared sample job record in its initial state. -/
def itemA : RuntimeItem :=
  RuntimeItem.mk mailA 0 "sending" []

/-- Shared sample configuration without DKIM. -/
def confA : ConfModel :=
  ConfModel.mk "sender.example" "smtp.sender.example" none

/-- Shared sample DoH response resolving to two MX hosts. -/
def dnsTwo : DnsResponse :=
  DnsResponse.mk 0 (some [DnsAnswer.mk 15 "10 mx1.example.com.", DnsAnswer.mk 15 "20 mx2.example.com."])

/-- Shared sample behaviour: every SMTP step succeeds, empty failure map. -/
def behOk : ServerBehavior :=
  ServerBehavior.mk none none "" none 0 "" none []

/-- Shared sample environment where every attempt succeeds at time 0. -/
def envOk : DeliveryEnv :=
  DeliveryEnv.mk false (fun _ => behOk) (fun _ => 0)

/-- Shared sample message with a single text part. -/
def mailText : MailMsg :=
  MailMsg.mk "g2" "alice" "Alice" "bob@example.com" "hello"
    [MailPart.text "hi" "plain" "utf-8"] 30 false

/-- C10: For every submission in which send_timeout is supplied as 0, the
normalized MailMessage's send_timeout equals the configured default
(mail.def_mail_send_timeout, or 30 when no configuration context is
present) rather than 0, because the defaulting validator treats any falsy
value as unset. -/
theorem send_timeout_zero_uses_default (conf : MailConfiguration) :
    using_def_send_timeout_if_not_set (some 0) (some conf) = conf.def_mail_send_timeout
    ∧ using_def_send_timeout_if_not_set (some 0) none = 30 :=
  ⟨rfl, rfl⟩

/-- Unfolding step for the write decisions once a hash has been recorded:
the next tick writes exactly when its hash differs from the recorded one. -/
theorem cleanup_writes_cons_recorded (p : Bool) (hash : String → String)
    (a b : String) (rest : List String) :
    cleanup_runtime_writes p hash (some (hash a)) (b :: rest)
      = (decide (hash b ≠ hash a) && p) ::
          cleanup_runtime_writes p hash (some (hash b)) rest := by
  simp only [cleanup_runtime_writes, List.cons.injEq, and_true]
  congr 1
  rw [decide_eq_decide]
  simp [eq_comm]

/-- Write decision at tick i+1 as a function of the hashes at ticks i and
i+1, for any starting recorded hash. -/
theorem cleanup_writes_succ (p : Bool) (hash : String → String) :
    ∀ (rts : List String) (last : Option String) (i : Nat) (a b : String),
      rts.get? i = some a → rts.get? (i + 1) = some b →
      (cleanup_runtime_writes p hash last rts).get? (i + 1)
        = some (decide (hash b ≠ hash a) && p)
  | [], _, i, _, _, ha, _ => by simp at ha
  | r :: rest, last, 0, a, b, ha, hb => by
    obtain rfl : r = a := by simpa using ha
    cases rest with
    | nil => simp at hb
    | cons s rest2 =>
      obtain rfl : s = b := by simpa using hb
      have step : cleanup_runtime_writes p hash last (r :: s :: rest2)
          = (decide (last ≠ some (hash r)) && p) ::
              cleanup_runtime_writes p hash (some (hash r)) (s :: rest2) := rfl
      rw [step, cleanup_writes_cons_recorded]
      rfl
  | r :: rest, last, Nat.succ i, a, b, ha, hb => by
    simp only [List.get?] at ha hb
    simpa [cleanup_runtime_writes] using
      cleanup_writes_succ p hash rest (some (hash r)) i a b ha hb

/-- C9: On every iteration of the snapshotter loop, a snapshot file write
is performed iff the SHA-256 hash of the serialized registry differs from
the hash recorded on the previous iteration; the first tick always
writes (no hash is recorded yet), and tick i+1 writes exactly when its
serialized registry hashes differently from tick i's, so two unchanged
consecutive ticks produce one write and a mutation between ticks a
second one.  Stated with runtime_file_path configured. -/
theorem snapshot_write_iff_hash_change (hash : String → String) (rts : List String) :
    (∀ s rest, rts = s :: rest →
        (cleanup_runtime_writes true hash none rts).get? 0 = some true)
    ∧ (∀ i a b, rts.get? i = some a → rts.get? (i + 1) = some b →
        (cleanup_runtime_writes true hash none rts).get? (i + 1)
          = some (decide (hash b ≠ hash a))) := by
  constructor
  · intro s rest h
    subst h
    simp [cleanup_runtime_writes]
  · intro i a b ha hb
    simpa using cleanup_writes_succ true hash rts none i a b ha hb

/-- Witness for C9: with the identity hash on tick stream a, a, the first
tick writes and the second does not. -/
theorem snapshot_write_iff_hash_change_witness :
    (cleanup_runtime_writes true (fun s => s) none ["a", "a"]).get? 0 = some true
    ∧ (cleanup_runtime_writes true (fun s => s) none ["a", "a"]).get? 1
        = some (decide (("a" : String) ≠ "a")) :=
  ⟨(snapshot_write_iff_hash_change (fun s => s) ["a", "a"]).1 "a" ["a"] rfl,
   (snapshot_write_iff_hash_change (fun s => s) ["a", "a"]).2 0 "a" "a" rfl rfl⟩

/-- C8 is a code bug: the claim (and the handler's visible intent, the
exclude set naming content_b64) is that GET /message/guid and the POST
send responses omit attachment bodies, but pydantic's set-form exclude
only filters RuntimeItem's own top-level fields, none of which is named
content_b64, so the dumped response body for a job with an attachment
still contains the attachment's base64 body under
message.data[0].content_b64. -/
theorem message_response_contains_attachment_body :
    (((jsonGet (messageResponseBody (RuntimeItem.mk
            (MailMsg.mk "g" "u" "U" "rcpt@example.com" "subj"
              [MailPart.attachment "a.txt" "text/plain" "QUJD"] 30 false)
            100 "sended" [])) "message").bind
        (fun m => jsonGet m "data")).bind
        (fun d => jsonIndex d 0)).bind
        (fun part => jsonGet part "content_b64")
      = some (Json.jstr "QUJD") := by
  rfl

/-- C7: For every submission whose data list has exactly one element and
that element is a text part, the outer MIME message built for it IS that
text part (no multipart container); for every other submission (zero
parts, multiple parts, or a single attachment part), the outer message is
a multipart/mixed container with the parts attached in submission order. -/
theorem build_mime_outer_structure (conf : ConfModel) (mail : MailMsg) (dateStr : String) :
    (∀ t st ch, mail.data = [MailPart.text t st ch] →
        (build_mime_message conf mail dateStr).1.1
          = MailPart.mimeObject (MailPart.text t st ch))
    ∧ (mail.data = [] →
        (build_mime_message conf mail dateStr).1.1 = MimeObj.multipartMixed [])
    ∧ (∀ n ct b, mail.data = [MailPart.attachment n ct b] →
        (build_mime_message conf mail dateStr).1.1
          = MimeObj.multipartMixed [MailPart.mimeObject (MailPart.attachment n ct b)])
    ∧ (2 ≤ mail.data.length →
        (build_mime_message conf mail dateStr).1.1
          = MimeObj.multipartMixed (mail.data.map MailPart.mimeObject)) := by
  obtain ⟨md, sn, dk⟩ := conf
  refine ⟨?_, ?_, ?_, ?_⟩
  · intro t st ch h
    rcases dk with _ | dke
    · simp [build_mime_message, h]
    · rcases dke with e | s <;> simp [build_mime_message, h]
  · intro h
    rcases dk with _ | dke
    · simp [build_mime_message, h]
    · rcases dke with e | s <;> simp [build_mime_message, h]
  · intro n ct b h
    rcases dk with _ | dke
    · simp [build_mime_message, h]
    · rcases dke with e | s <;> simp [build_mime_message, h]
  · intro h
    rcases hd : mail.data with _ | ⟨x, _ | ⟨y, rest⟩⟩
    · rw [hd] at h; simp at h
    · rw [hd] at h; simp at h
    · rcases dk with _ | dke
      · cases x <;> simp [build_mime_message, hd]
      · rcases dke with e | s <;> cases x <;> simp [build_mime_message, hd]

/-- Witness for C7 at the single-text submission: the outer object is the
text part itself. -/
theorem build_mime_outer_structure_witness :
    (build_mime_message confA mailText "d").1.1
      = MailPart.mimeObject (MailPart.text "hi" "plain" "utf-8") :=
  (build_mime_outer_structure confA mailText "d").1 "hi" "plain" "utf-8" rfl

/-- C6: For every delivered message, the built MIME message contains
exactly one DKIM-Signature header when DKIM signing is enabled
(dkim_key_path is set) and the signer succeeds, and zero when signing is
not enabled; on any signing error a mailer-dkim event with the error text
is logged and the message is sent unsigned (zero DKIM-Signature
headers). -/
theorem build_mime_dkim_header_count (conf : ConfModel) (mail : MailMsg) (dateStr : String) :
    countHeader (build_mime_message conf mail dateStr).1.2 "DKIM-Signature"
        = (match conf.dkim with
           | some (Except.ok _) => 1
           | _ => 0)
    ∧ (conf.dkim = none →
        countHeader (build_mime_message conf mail dateStr).1.2 "DKIM-Signature" = 0)
    ∧ (∀ e, conf.dkim = some (Except.error e) →
        countHeader (build_mime_message conf mail dateStr).1.2 "DKIM-Signature" = 0
        ∧ Event.mk "mailer-dkim" ("sign generation error: " ++ e)
            ∈ (build_mime_message conf mail dateStr).2) := by
  obtain ⟨md, sn, dk⟩ := conf
  rcases dk with _ | dke
  · exact ⟨rfl, fun _ => rfl, fun e he => by simp at he⟩
  · rcases dke with e0 | s0
    · refine ⟨rfl, fun h => by simp at h, fun e he => ?_⟩
      obtain rfl : e0 = e := by simpa using he
      exact ⟨rfl, by simp [build_mime_message]⟩
    · exact ⟨rfl, fun h => by simp at h, fun e he => by simp at he⟩

/-- Witness for C6: with signing enabled and the signer raising, the
error event is logged and the message carries no DKIM-Signature header. -/
theorem build_mime_dkim_header_count_witness :
    countHeader (build_mime_message
        (ConfModel.mk "sender.example" "smtp.sender.example" (some (Except.error "boom")))
        mailA "d").1.2 "DKIM-Signature" = 0
    ∧ Event.mk "mailer-dkim" ("sign generation error: " ++ "boom")
        ∈ (build_mime_message
            (ConfModel.mk "sender.example" "smtp.sender.example" (some (Except.error "boom")))
            mailA "d").2 :=
  (build_mime_dkim_header_count
    (ConfModel.mk "sender.example" "smtp.sender.example" (some (Except.error "boom")))
    mailA "d").2.2 "boom" rfl

/-- C5: For every job whose recipient domain yields an empty MX list, the
engine logs cannot get mx servers for the domain and returns false while
leaving the job's state at its current value (sending) — the state field
and all other RuntimeItem fields except the event log are unchanged on
this path; state is not set to error. -/
theorem api_send_message_empty_mx (env : DeliveryEnv) (conf : ConfModel) (dns : DnsResponse)
    (mail : MailMsg) (dateStr : String) (item : RuntimeItem)
    (hmx : get_mx_server_address dns = []) :
    api_send_message env conf dns mail dateStr item
      = (item.log "mailer"
            ("cannot get mx servers for: " ++ (pySplit mail.addressTo '@').getD 1 ""),
         [], Except.ok false)
    ∧ (api_send_message env conf dns mail dateStr item).1.state = item.state
    ∧ (api_send_message env conf dns mail dateStr item).1.tsAdded = item.tsAdded
    ∧ (api_send_message env conf dns mail dateStr item).1.message = item.message
    ∧ (api_send_message env conf dns mail dateStr item).1.events
        = item.events ++
            [Event.mk "mailer"
              ("cannot get mx servers for: " ++ (pySplit mail.addressTo '@').getD 1 "")] := by
  have h1 : api_send_message env conf dns mail dateStr item
      = (item.log "mailer"
            ("cannot get mx servers for: " ++ (pySplit mail.addressTo '@').getD 1 ""),
         [], Except.ok false) := by
    simp [api_send_message, hmx]
  exact ⟨h1, by rw [h1]; simp [RuntimeItem.log], by rw [h1]; simp [RuntimeItem.log],
    by rw [h1]; simp [RuntimeItem.log], by rw [h1]; simp [RuntimeItem.log]⟩

/-- Witness for C5 at a DoH response with nonzero status: the state field
is untouched and the call returns false. -/
theorem api_send_message_empty_mx_witness :
    get_mx_server_address (DnsResponse.mk 2 none) = []
    ∧ (api_send_message envOk confA (DnsResponse.mk 2 none) mailA "d" itemA).1.state
        = itemA.state
    ∧ (api_send_message envOk confA (DnsResponse.mk 2 none) mailA "d" itemA).2.2
        = Except.ok false :=
  ⟨rfl,
   (api_send_message_empty_mx envOk confA (DnsResponse.mk 2 none) mailA "d" itemA rfl).2.1,
   by rw [(api_send_message_empty_mx envOk confA (DnsResponse.mk 2 none) mailA "d" itemA rfl).1]⟩

/-- C4 (amended): For every successful DoH response with Status 0, the
resolver keeps the Answer entries with type 15, strips leading and
trailing dots from each data field, and — provided the part of every
kept entry before its first space is a string int() accepts — sorts the
entries ascending (stably) by that numeric preference and returns the
token after the first space of each, an entry without a space being
returned as-is.  When any kept entry's first token is not numeric (in
particular a bare non-numeric hostname), int() raises inside the sort
key, the broad except handler returns the empty list, and resolution
fails instead of keeping the bare hostname. -/
theorem get_mx_sorted_wellformed (res : DnsResponse) (answers : List DnsAnswer)
    (hst : res.status = 0) (hans : res.answer = some answers)
    (hkeys : ((answers.filter (fun a => a.type = 15)).map
        (fun a => pyStripDots a.data)).all
          (fun s => (pyIntParse (tok0 s)).isSome) = true) :
    ∃ l : List String,
      List.Perm l ((answers.filter (fun a => a.type = 15)).map (fun a => pyStripDots a.data))
      ∧ List.Sorted mxLe l
      ∧ get_mx_server_address res = l.map extractHost
      ∧ ∀ s ∈ l, strContains s " " = false → extractHost s = s := by
  refine ⟨List.insertionSort mxLe ((answers.filter (fun a => a.type = 15)).map
      (fun a => pyStripDots a.data)), ?_, ?_, ?_, ?_⟩
  · exact List.perm_insertionSort mxLe _
  · exact List.sorted_insertionSort mxLe _
  · simp [get_mx_server_address, hst, hans, hkeys]
  · intro s _ hns
    simp [extractHost, hns]

/-- Counterexample to C4 as stated: a Status-0 response whose single
type-15 Answer data is the bare hostname mailhost. — the claim says the
returned list keeps it as mailhost, but int() applied to the sort key
raises ValueError, the broad except handler returns the empty list, and
the resolution fails. -/
theorem get_mx_bare_hostname_not_kept :
    get_mx_server_address (DnsResponse.mk 0 (some [DnsAnswer.mk 15 "mailhost."])) = []
    ∧ get_mx_server_address (DnsResponse.mk 0 (some [DnsAnswer.mk 15 "mailhost."]))
        ≠ ["mailhost"] :=
  ⟨rfl, by decide⟩

/-- Witness for C4 at a well-formed two-entry response with preferences
out of order. -/
theorem get_mx_sorted_wellformed_witness :
    ∃ l : List String,
      List.Perm l ((([DnsAnswer.mk 15 "20 mx2.example.com.",
            DnsAnswer.mk 15 "10 mx1.example.com."]).filter (fun a => a.type = 15)).map
          (fun a => pyStripDots a.data))
      ∧ List.Sorted mxLe l
      ∧ get_mx_server_address (DnsResponse.mk 0 (some [DnsAnswer.mk 15 "20 mx2.example.com.",
            DnsAnswer.mk 15 "10 mx1.example.com."])) = l.map extractHost
      ∧ ∀ s ∈ l, strContains s " " = false → extractHost s = s :=
  get_mx_sorted_wellformed
    (DnsResponse.mk 0 (some [DnsAnswer.mk 15 "20 mx2.example.com.",
      DnsAnswer.mk 15 "10 mx1.example.com."]))
    [DnsAnswer.mk 15 "20 mx2.example.com.", DnsAnswer.mk 15 "10 mx1.example.com."]
    rfl rfl (by decide)

/-- Counterexample to C3 as stated: with two resolved MX hosts and the
first host's EHLO exchange raising, the exception escapes
api_send_message uncaught (the call evaluates to Except.error), the
failure is not logged as an event, and the second MX host is never
attempted — the engine does not advance to the next MX. -/
theorem ehlo_exception_escapes :
    (api_send_message
        (DeliveryEnv.mk false
          (fun _ => ServerBehavior.mk none (some "ehlo boom") "" none 0 "" none [])
          (fun _ => 0))
        confA dnsTwo mailA "d" itemA).2.2 = Except.error "ehlo boom"
    ∧ ((api_send_message
        (DeliveryEnv.mk false
          (fun _ => ServerBehavior.mk none (some "ehlo boom") "" none 0 "" none [])
          (fun _ => 0))
        confA dnsTwo mailA "d" itemA).2.1).map (fun a => a.host) = ["mx1.example.com"]
    ∧ get_mx_server_address dnsTwo = ["mx1.example.com", "mx2.example.com"] :=
  ⟨rfl, rfl, rfl⟩

/-- C3 (amended): transport exceptions raised while connecting and while
transmitting the message (send_message, covering MAIL/RCPT/DATA) are
caught by try_connect_server_and_send, logged into the job's event log,
and answered with advance-to-next-MX; but an exception raised during the
EHLO exchange is not caught: it propagates out of
try_connect_server_and_send, and hence out of api_send_message,
uncaught. -/
theorem try_connect_transport_errors (p : Bool) (beh : ServerBehavior)
    (mx : String) (now ts : Int) :
    (∀ e, beh.connectErr = some e →
        (try_connect_server_and_send p beh mx now ts).2 = Except.ok (false, true)
        ∧ Event.mk "smtp" ("[" ++ mx ++ "] cannot connect to mx server " ++ e)
            ∈ (try_connect_server_and_send p beh mx now ts).1)
    ∧ (∀ e, beh.connectErr = none → beh.ehloErr = some e →
        (try_connect_server_and_send p beh mx now ts).2 = Except.error e)
    ∧ (∀ e, beh.connectErr = none → beh.ehloErr = none →
        (strContains beh.ehloStatus "STARTTLS" = true → beh.tlsErr = none) →
        beh.sendErr = some e →
        (try_connect_server_and_send p beh mx now ts).2 = Except.ok (false, true)
        ∧ Event.mk "smtp" ("[" ++ mx ++ "] send mail error " ++ e)
            ∈ (try_connect_server_and_send p beh mx now ts).1) := by
  obtain ⟨ce, ee, es, te, tcode, tstat, se, srr⟩ := beh
  refine ⟨?_, ?_, ?_⟩
  · intro e he
    have hce : ce = some e := he
    subst hce
    constructor
    · simp [try_connect_server_and_send]
    · simp [try_connect_server_and_send]
  · intro e h1 h2
    have hce : ce = none := h1
    have hee : ee = some e := h2
    subst hce
    subst hee
    simp [try_connect_server_and_send]
  · intro e h1 h2 h3 h4
    have hce : ce = none := h1
    have hee : ee = none := h2
    have hse : se = some e := h4
    subst hce
    subst hee
    subst hse
    by_cases hst : strContains es "STARTTLS" = true
    · have hte : te = none := h3 hst
      subst hte
      constructor
      · simp [try_connect_server_and_send, sendPhase, hst]
      · simp [try_connect_server_and_send, sendPhase, hst]
    · constructor
      · simp [try_connect_server_and_send, sendPhase, hst]
      · simp [try_connect_server_and_send, sendPhase, hst]

/-- Witness for C3: a concrete escaping EHLO exception and a concrete
caught send_message exception. -/
theorem try_connect_transport_errors_witness :
    (try_connect_server_and_send false
        (ServerBehavior.mk none (some "ehlo boom") "" none 0 "" none [])
        "mx1.example.com" 0 0).2 = Except.error "ehlo boom"
    ∧ (try_connect_server_and_send false
        (ServerBehavior.mk none none "" none 0 "" (some "data err") [])
        "mx1.example.com" 0 0).2 = Except.ok (false, true) :=
  ⟨(try_connect_transport_errors false
      (ServerBehavior.mk none (some "ehlo boom") "" none 0 "" none [])
      "mx1.example.com" 0 0).2.1 "ehlo boom" rfl rfl,
   ((try_connect_transport_errors false
      (ServerBehavior.mk none none "" none 0 "" (some "data err") [])
      "mx1.example.com" 0 0).2.2 "data err" rfl rfl (fun _ => rfl) rfl).1⟩

/-- Hosts attempted by the MX loop are the first length-many entries of
the MX list in order: each list position is attempted at most once. -/
theorem send_loop_hosts_take (env : DeliveryEnv) (t ts : Int) :
    ∀ (mxs : List String) (i : Nat),
      ((send_loop env t ts mxs i).2.1).map (fun a => a.host)
        = mxs.take ((send_loop env t ts mxs i).2.1).length
  | [], _ => rfl
  | mx :: rest, i => by
    have ih := send_loop_hosts_take env t ts rest (i + 1)
    simp only [send_loop]
    rcases h : (try_connect_server_and_send env.proxyConfigured (env.behave i) mx
        (env.timeAt i) ts).2 with e | sr
    · simp [h]
    · rcases sr with ⟨sent, tryAgain⟩
      cases sent
      · by_cases ht : env.timeAt i - ts > t
        · simp [h, ht]
        · cases tryAgain
          · simp [h, ht]
          · simp [h, ht, ih]
      · simp [h]

/-- The loop reports success exactly when one of its recorded attempts
has a true status. -/
theorem send_loop_ok_iff_sent (env : DeliveryEnv) (t ts : Int) :
    ∀ (mxs : List String) (i : Nat),
      ((send_loop env t ts mxs i).2.2 = Except.ok true
        ↔ ∃ a ∈ (send_loop env t ts mxs i).2.1, a.sent = true)
  | [], _ => by simp [send_loop]
  | mx :: rest, i => by
    have ih := send_loop_ok_iff_sent env t ts rest (i + 1)
    simp only [send_loop]
    rcases h : (try_connect_server_and_send env.proxyConfigured (env.behave i) mx
        (env.timeAt i) ts).2 with e | sr
    · simp [h]
    · rcases sr with ⟨sent, tryAgain⟩
      cases sent
      · by_cases ht : env.timeAt i - ts > t
        · simp [h, ht]
        · cases tryAgain
          · simp [h, ht]
          · simp [h, ht, ih]
      · simp [h]


/-- When the loop returns normally, every recorded attempt is grounded in
the embedded SMTP attempt function: the recorded (status, try_again) pair
is what try_connect_server_and_send returned for that host at that
attempt's clock reading, the timed-out flag is the deadline comparison
made after an unsuccessful attempt, and every event the attempt logged is
among the loop's events. -/
theorem send_loop_ground (env : DeliveryEnv) (t ts : Int) :
    ∀ (mxs : List String) (i : Nat) (b : Bool),
      (send_loop env t ts mxs i).2.2 = Except.ok b →
      ∀ (j : Nat) (ar : AttemptRecord),
        ((send_loop env t ts mxs i).2.1).get? j = some ar →
        (try_connect_server_and_send env.proxyConfigured (env.behave (i + j)) ar.host
            (env.timeAt (i + j)) ts).2 = Except.ok (ar.sent, ar.tryAgain)
        ∧ ar.timedOut = (!ar.sent && decide (env.timeAt (i + j) - ts > t))
        ∧ ∀ ev ∈ (try_connect_server_and_send env.proxyConfigured (env.behave (i + j)) ar.host
            (env.timeAt (i + j)) ts).1, ev ∈ (send_loop env t ts mxs i).1
  | [], _, b, hb, j, ar, ha => by simp [send_loop] at ha
  | mx :: rest, i, b, hb, j, ar, ha => by
    rcases h : (try_connect_server_and_send env.proxyConfigured (env.behave i) mx
        (env.timeAt i) ts).2 with e | sr
    · have key : (send_loop env t ts (mx :: rest) i).2.2 = Except.error e := by
        simp [send_loop, h]
      rw [key] at hb
      simp at hb
    · rcases sr with ⟨sent, tryAgain⟩
      cases sent
      · by_cases ht : env.timeAt i - ts > t
        · have key : send_loop env t ts (mx :: rest) i
              = (Event.mk "mailer" ("try mx server for send " ++ mx) ::
                  ((try_connect_server_and_send env.proxyConfigured (env.behave i) mx
                    (env.timeAt i) ts).1 ++
                    [Event.mk "mailer" "message send timeout reached"]),
                 [AttemptRecord.mk mx false tryAgain true], Except.ok false) := by
            simp [send_loop, h, ht]
          rw [key] at hb ha ⊢
          cases j with
          | zero =>
            obtain rfl : AttemptRecord.mk mx false tryAgain true = ar := by simpa using ha
            refine ⟨by simpa using h, by simp [ht], ?_⟩
            intro ev hev
            simp only [Nat.add_zero] at hev
            simp [hev]
          | succ j => simp at ha
        · cases tryAgain
          · have key : send_loop env t ts (mx :: rest) i
                = (Event.mk "mailer" ("try mx server for send " ++ mx) ::
                    (try_connect_server_and_send env.proxyConfigured (env.behave i) mx
                      (env.timeAt i) ts).1,
                   [AttemptRecord.mk mx false false false], Except.ok false) := by
              simp [send_loop, h, ht]
            rw [key] at hb ha ⊢
            cases j with
            | zero =>
              obtain rfl : AttemptRecord.mk mx false false false = ar := by simpa using ha
              refine ⟨by simpa using h, by simp [ht], ?_⟩
              intro ev hev
              simp only [Nat.add_zero] at hev
              simp [hev]
            | succ j => simp at ha
          · have key : send_loop env t ts (mx :: rest) i
                = (Event.mk "mailer" ("try mx server for send " ++ mx) ::
                    ((try_connect_server_and_send env.proxyConfigured (env.behave i) mx
                      (env.timeAt i) ts).1 ++ (send_loop env t ts rest (i + 1)).1),
                   AttemptRecord.mk mx false true false :: (send_loop env t ts rest (i + 1)).2.1,
                   (send_loop env t ts rest (i + 1)).2.2) := by
              simp [send_loop, h, ht]
            rw [key] at hb ha ⊢
            cases j with
            | zero =>
              obtain rfl : AttemptRecord.mk mx false true false = ar := by simpa using ha
              refine ⟨by simpa using h, by simp [ht], ?_⟩
              intro ev hev
              simp only [Nat.add_zero] at hev
              simp [hev]
            | succ j =>
              have ha2 : ((send_loop env t ts rest (i + 1)).2.1).get? j = some ar := by
                simpa using ha
              have hb2 : (send_loop env t ts rest (i + 1)).2.2 = Except.ok b := by
                simpa using hb
              have hres := send_loop_ground env t ts rest (i + 1) b hb2 j ar ha2
              have hidx : i + (j + 1) = i + 1 + j := by omega
              rw [hidx]
              refine ⟨hres.1, hres.2.1, ?_⟩
              intro ev hev
              have hmem := hres.2.2 ev hev
              simp [hmem]
      · have key : send_loop env t ts (mx :: rest) i
            = (Event.mk "mailer" ("try mx server for send " ++ mx) ::
                (try_connect_server_and_send env.proxyConfigured (env.behave i) mx
                  (env.timeAt i) ts).1,
               [AttemptRecord.mk mx true tryAgain false], Except.ok true) := by
          simp [send_loop, h]
        rw [key] at hb ha ⊢
        cases j with
        | zero =>
          obtain rfl : AttemptRecord.mk mx true tryAgain false = ar := by simpa using ha
          refine ⟨by simpa using h, by simp, ?_⟩
          intro ev hev
          simp only [Nat.add_zero] at hev
          simp [hev]
        | succ j => simp at ha

/-- An attempt whose deadline check fired is the last attempt: the loop
logs message send timeout reached, stops iterating, and reports failure. -/
theorem send_loop_timeout_stop (env : DeliveryEnv) (t ts : Int) :
    ∀ (mxs : List String) (i j : Nat) (ar : AttemptRecord),
      ((send_loop env t ts mxs i).2.1).get? j = some ar →
      ar.timedOut = true →
      ((send_loop env t ts mxs i).2.1).length = j + 1
      ∧ Event.mk "mailer" "message send timeout reached" ∈ (send_loop env t ts mxs i).1
      ∧ (send_loop env t ts mxs i).2.2 = Except.ok false
  | [], _, j, ar, ha, _ => by simp [send_loop] at ha
  | mx :: rest, i, j, ar, ha, hto => by
    rcases h : (try_connect_server_and_send env.proxyConfigured (env.behave i) mx
        (env.timeAt i) ts).2 with e | sr
    · have key : send_loop env t ts (mx :: rest) i
          = (Event.mk "mailer" ("try mx server for send " ++ mx) ::
              (try_connect_server_and_send env.proxyConfigured (env.behave i) mx
                (env.timeAt i) ts).1,
             [AttemptRecord.mk mx false false false], Except.error e) := by
        simp [send_loop, h]
      rw [key] at ha
      cases j with
      | zero =>
        obtain rfl : AttemptRecord.mk mx false false false = ar := by simpa using ha
        simp at hto
      | succ j => simp at ha
    · rcases sr with ⟨sent, tryAgain⟩
      cases sent
      · by_cases ht : env.timeAt i - ts > t
        · have key : send_loop env t ts (mx :: rest) i
              = (Event.mk "mailer" ("try mx server for send " ++ mx) ::
                  ((try_connect_server_and_send env.proxyConfigured (env.behave i) mx
                    (env.timeAt i) ts).1 ++
                    [Event.mk "mailer" "message send timeout reached"]),
                 [AttemptRecord.mk mx false tryAgain true], Except.ok false) := by
            simp [send_loop, h, ht]
          rw [key] at ha ⊢
          cases j with
          | zero => simp
          | succ j => simp at ha
        · cases tryAgain
          · have key : send_loop env t ts (mx :: rest) i
                = (Event.mk "mailer" ("try mx server for send " ++ mx) ::
                    (try_connect_server_and_send env.proxyConfigured (env.behave i) mx
                      (env.timeAt i) ts).1,
                   [AttemptRecord.mk mx false false false], Except.ok false) := by
              simp [send_loop, h, ht]
            rw [key] at ha
            cases j with
            | zero =>
              obtain rfl : AttemptRecord.mk mx false false false = ar := by simpa using ha
              simp at hto
            | succ j => simp at ha
          · have key : send_loop env t ts (mx :: rest) i
                = (Event.mk "mailer" ("try mx server for send " ++ mx) ::
                    ((try_connect_server_and_send env.proxyConfigured (env.behave i) mx
                      (env.timeAt i) ts).1 ++ (send_loop env t ts rest (i + 1)).1),
                   AttemptRecord.mk mx false true false :: (send_loop env t ts rest (i + 1)).2.1,
                   (send_loop env t ts rest (i + 1)).2.2) := by
              simp [send_loop, h, ht]
            rw [key] at ha ⊢
            cases j with
            | zero =>
              obtain rfl : AttemptRecord.mk mx false true false = ar := by simpa using ha
              simp at hto
            | succ j =>
              have ha2 : ((send_loop env t ts rest (i + 1)).2.1).get? j = some ar := by
                simpa using ha
              have hres := send_loop_timeout_stop env t ts rest (i + 1) j ar ha2 hto
              refine ⟨by simpa using hres.1, ?_, by simpa using hres.2.2⟩
              have hmem := hres.2.1
              simp [hmem]
      · have key : send_loop env t ts (mx :: rest) i
            = (Event.mk "mailer" ("try mx server for send " ++ mx) ::
                (try_connect_server_and_send env.proxyConfigured (env.behave i) mx
                  (env.timeAt i) ts).1,
               [AttemptRecord.mk mx true tryAgain false], Except.ok true) := by
          simp [send_loop, h]
        rw [key] at ha
        cases j with
        | zero =>
          obtain rfl : AttemptRecord.mk mx true tryAgain false = ar := by simpa using ha
          simp at hto
        | succ j => simp at ha

/-- When the loop returns normally, an attempt that came back with a
false status and a false try-again flag is the last attempt, and the
loop reports failure. -/
theorem send_loop_noretry_stop (env : DeliveryEnv) (t ts : Int) :
    ∀ (mxs : List String) (i : Nat) (b : Bool),
      (send_loop env t ts mxs i).2.2 = Except.ok b →
      ∀ (j : Nat) (ar : AttemptRecord),
        ((send_loop env t ts mxs i).2.1).get? j = some ar →
        ar.sent = false → ar.tryAgain = false →
        ((send_loop env t ts mxs i).2.1).length = j + 1
        ∧ (send_loop env t ts mxs i).2.2 = Except.ok false
  | [], _, b, _, j, ar, ha, _, _ => by simp [send_loop] at ha
  | mx :: rest, i, b, hb, j, ar, ha, hs, hta => by
    rcases h : (try_connect_server_and_send env.proxyConfigured (env.behave i) mx
        (env.timeAt i) ts).2 with e | sr
    · have key : (send_loop env t ts (mx :: rest) i).2.2 = Except.error e := by
        simp [send_loop, h]
      rw [key] at hb
      simp at hb
    · rcases sr with ⟨sent, tryAgain⟩
      cases sent
      · by_cases ht : env.timeAt i - ts > t
        · have key : send_loop env t ts (mx :: rest) i
              = (Event.mk "mailer" ("try mx server for send " ++ mx) ::
                  ((try_connect_server_and_send env.proxyConfigured (env.behave i) mx
                    (env.timeAt i) ts).1 ++
                    [Event.mk "mailer" "message send timeout reached"]),
                 [AttemptRecord.mk mx false tryAgain true], Except.ok false) := by
            simp [send_loop, h, ht]
          rw [key] at ha ⊢
          cases j with
          | zero => simp
          | succ j => simp at ha
        · cases tryAgain
          · have key : send_loop env t ts (mx :: rest) i
                = (Event.mk "mailer" ("try mx server for send " ++ mx) ::
                    (try_connect_server_and_send env.proxyConfigured (env.behave i) mx
                      (env.timeAt i) ts).1,
                   [AttemptRecord.mk mx false false false], Except.ok false) := by
              simp [send_loop, h, ht]
            rw [key] at ha ⊢
            cases j with
            | zero => simp
            | succ j => simp at ha
          · have key : send_loop env t ts (mx :: rest) i
                = (Event.mk "mailer" ("try mx server for send " ++ mx) ::
                    ((try_connect_server_and_send env.proxyConfigured (env.behave i) mx
                      (env.timeAt i) ts).1 ++ (send_loop env t ts rest (i + 1)).1),
                   AttemptRecord.mk mx false true false :: (send_loop env t ts rest (i + 1)).2.1,
                   (send_loop env t ts rest (i + 1)).2.2) := by
              simp [send_loop, h, ht]
            rw [key] at hb ha ⊢
            cases j with
            | zero =>
              obtain rfl : AttemptRecord.mk mx false true false = ar := by simpa using ha
              simp at hta
            | succ j =>
              have ha2 : ((send_loop env t ts rest (i + 1)).2.1).get? j = some ar := by
                simpa using ha
              have hb2 : (send_loop env t ts rest (i + 1)).2.2 = Except.ok b := by
                simpa using hb
              have hres := send_loop_noretry_stop env t ts rest (i + 1) b hb2 j ar ha2 hs hta
              exact ⟨by simpa using hres.1, by simpa using hres.2⟩
      · have key : send_loop env t ts (mx :: rest) i
            = (Event.mk "mailer" ("try mx server for send " ++ mx) ::
                (try_connect_server_and_send env.proxyConfigured (env.behave i) mx
                  (env.timeAt i) ts).1,
               [AttemptRecord.mk mx true tryAgain false], Except.ok true) := by
          simp [send_loop, h]
        rw [key] at ha
        cases j with
        | zero =>
          obtain rfl : AttemptRecord.mk mx true tryAgain false = ar := by simpa using ha
          simp at hs
        | succ j => simp at ha

/-- A loop run that fails although every attempt asked to try the next
host and no deadline fired has consumed the whole MX list. -/
theorem send_loop_exhausts (env : DeliveryEnv) (t ts : Int) :
    ∀ (mxs : List String) (i : Nat),
      (send_loop env t ts mxs i).2.2 = Except.ok false →
      (∀ ar ∈ (send_loop env t ts mxs i).2.1, ar.tryAgain = true ∧ ar.timedOut = false) →
      ((send_loop env t ts mxs i).2.1).length = mxs.length
  | [], _, _, _ => by simp [send_loop]
  | mx :: rest, i, hb, hall => by
    rcases h : (try_connect_server_and_send env.proxyConfigured (env.behave i) mx
        (env.timeAt i) ts).2 with e | sr
    · have key : (send_loop env t ts (mx :: rest) i).2.2 = Except.error e := by
        simp [send_loop, h]
      rw [key] at hb
      simp at hb
    · rcases sr with ⟨sent, tryAgain⟩
      cases sent
      · by_cases ht : env.timeAt i - ts > t
        · have key : send_loop env t ts (mx :: rest) i
              = (Event.mk "mailer" ("try mx server for send " ++ mx) ::
                  ((try_connect_server_and_send env.proxyConfigured (env.behave i) mx
                    (env.timeAt i) ts).1 ++
                    [Event.mk "mailer" "message send timeout reached"]),
                 [AttemptRecord.mk mx false tryAgain true], Except.ok false) := by
            simp [send_loop, h, ht]
          rw [key] at hall
          have := (hall (AttemptRecord.mk mx false tryAgain true) (by simp)).2
          simp at this
        · cases tryAgain
          · have key : send_loop env t ts (mx :: rest) i
                = (Event.mk "mailer" ("try mx server for send " ++ mx) ::
                    (try_connect_server_and_send env.proxyConfigured (env.behave i) mx
                      (env.timeAt i) ts).1,
                   [AttemptRecord.mk mx false false false], Except.ok false) := by
              simp [send_loop, h, ht]
            rw [key] at hall
            have := (hall (AttemptRecord.mk mx false false false) (by simp)).1
            simp at this
          · have key : send_loop env t ts (mx :: rest) i
                = (Event.mk "mailer" ("try mx server for send " ++ mx) ::
                    ((try_connect_server_and_send env.proxyConfigured (env.behave i) mx
                      (env.timeAt i) ts).1 ++ (send_loop env t ts rest (i + 1)).1),
                   AttemptRecord.mk mx false true false :: (send_loop env t ts rest (i + 1)).2.1,
                   (send_loop env t ts rest (i + 1)).2.2) := by
              simp [send_loop, h, ht]
            rw [key] at hb hall ⊢
            have hb2 : (send_loop env t ts rest (i + 1)).2.2 = Except.ok false := by
              simpa using hb
            have hall2 : ∀ ar ∈ (send_loop env t ts rest (i + 1)).2.1,
                ar.tryAgain = true ∧ ar.timedOut = false := by
              intro ar har
              exact hall ar (by simp [har])
            have := send_loop_exhausts env t ts rest (i + 1) hb2 hall2
            simpa using this
      · have key : (send_loop env t ts (mx :: rest) i).2.2 = Except.ok true := by
          simp [send_loop, h]
        rw [key] at hb
        simp at hb

/-- A behaviour that reaches the nonempty-failure-map return makes
try_connect_server_and_send log the json of the failure map and answer
(false, false): delivery failed, do not try another MX. -/
theorem try_connect_refusal (p : Bool) (beh : ServerBehavior) (mx : String) (now ts : Int)
    (h : reachesRefusal beh = true) :
    (try_connect_server_and_send p beh mx now ts).2 = Except.ok (false, false)
    ∧ Event.mk "smtp" ("[" ++ mx ++ "] mail have some errors on send: "
        ++ failuresJson beh.sendResult)
        ∈ (try_connect_server_and_send p beh mx now ts).1 := by
  obtain ⟨ce, ee, es, te, tcode, tstat, se, srr⟩ := beh
  simp only [reachesRefusal, Bool.and_eq_true, Option.isNone_iff_eq_none, Bool.or_eq_true,
    Bool.not_eq_true'] at h
  obtain ⟨⟨⟨⟨h1, h2⟩, h3⟩, h4⟩, h5⟩ := h
  subst h1
  subst h2
  subst h4
  by_cases hst : strContains es "STARTTLS" = true
  · have hte : te = none := by
      rcases h3 with h3 | h3
      · rw [hst] at h3; simp at h3
      · exact h3
    subst hte
    constructor
    · simp [try_connect_server_and_send, sendPhase, hst, h5]
    · simp [try_connect_server_and_send, sendPhase, hst, h5]
  · constructor
    · simp [try_connect_server_and_send, sendPhase, hst, h5]
    · simp [try_connect_server_and_send, sendPhase, hst, h5]

/-- An attempt whose SMTP conversation ends in the refusal return
(false, false) is the last attempt and the loop reports failure; all
events of that attempt, the refusal log included, are among the loop's
events. -/
theorem send_loop_refusal_stop (env : DeliveryEnv) (t ts : Int) :
    ∀ (mxs : List String) (i j : Nat) (ar : AttemptRecord),
      ((send_loop env t ts mxs i).2.1).get? j = some ar →
      (try_connect_server_and_send env.proxyConfigured (env.behave (i + j)) ar.host
          (env.timeAt (i + j)) ts).2 = Except.ok (false, false) →
      ((send_loop env t ts mxs i).2.1).length = j + 1
      ∧ (send_loop env t ts mxs i).2.2 = Except.ok false
      ∧ ∀ ev ∈ (try_connect_server_and_send env.proxyConfigured (env.behave (i + j)) ar.host
          (env.timeAt (i + j)) ts).1, ev ∈ (send_loop env t ts mxs i).1
  | [], _, j, ar, ha, _ => by simp [send_loop] at ha
  | mx :: rest, i, j, ar, ha, htc => by
    rcases h : (try_connect_server_and_send env.proxyConfigured (env.behave i) mx
        (env.timeAt i) ts).2 with e | sr
    · have key : send_loop env t ts (mx :: rest) i
          = (Event.mk "mailer" ("try mx server for send " ++ mx) ::
              (try_connect_server_and_send env.proxyConfigured (env.behave i) mx
                (env.timeAt i) ts).1,
             [AttemptRecord.mk mx false false false], Except.error e) := by
        simp [send_loop, h]
      rw [key] at ha
      cases j with
      | zero =>
        obtain rfl : AttemptRecord.mk mx false false false = ar := by simpa using ha
        simp only [Nat.add_zero] at htc
        rw [h] at htc
        simp at htc
      | succ j => simp at ha
    · rcases sr with ⟨sent, tryAgain⟩
      cases sent
      · by_cases ht : env.timeAt i - ts > t
        · have key : send_loop env t ts (mx :: rest) i
              = (Event.mk "mailer" ("try mx server for send " ++ mx) ::
                  ((try_connect_server_and_send env.proxyConfigured (env.behave i) mx
                    (env.timeAt i) ts).1 ++
                    [Event.mk "mailer" "message send timeout reached"]),
                 [AttemptRecord.mk mx false tryAgain true], Except.ok false) := by
            simp [send_loop, h, ht]
          rw [key] at ha ⊢
          cases j with
          | zero =>
            obtain rfl : AttemptRecord.mk mx false tryAgain true = ar := by simpa using ha
            refine ⟨by simp, rfl, ?_⟩
            intro ev hev
            simp only [Nat.add_zero] at hev
            simp [hev]
          | succ j => simp at ha
        · cases tryAgain
          · have key : send_loop env t ts (mx :: rest) i
                = (Event.mk "mailer" ("try mx server for send " ++ mx) ::
                    (try_connect_server_and_send env.proxyConfigured (env.behave i) mx
                      (env.timeAt i) ts).1,
                   [AttemptRecord.mk mx false false false], Except.ok false) := by
              simp [send_loop, h, ht]
            rw [key] at ha ⊢
            cases j with
            | zero =>
              obtain rfl : AttemptRecord.mk mx false false false = ar := by simpa using ha
              refine ⟨by simp, rfl, ?_⟩
              intro ev hev
              simp only [Nat.add_zero] at hev
              simp [hev]
            | succ j => simp at ha
          · have key : send_loop env t ts (mx :: rest) i
                = (Event.mk "mailer" ("try mx server for send " ++ mx) ::
                    ((try_connect_server_and_send env.proxyConfigured (env.behave i) mx
                      (env.timeAt i) ts).1 ++ (send_loop env t ts rest (i + 1)).1),
                   AttemptRecord.mk mx false true false :: (send_loop env t ts rest (i + 1)).2.1,
                   (send_loop env t ts rest (i + 1)).2.2) := by
              simp [send_loop, h, ht]
            rw [key] at ha ⊢
            cases j with
            | zero =>
              obtain rfl : AttemptRecord.mk mx false true false = ar := by simpa using ha
              simp only [Nat.add_zero] at htc
              rw [h] at htc
              simp at htc
            | succ j =>
              have ha2 : ((send_loop env t ts rest (i + 1)).2.1).get? j = some ar := by
                simpa using ha
              have htc2 : (try_connect_server_and_send env.proxyConfigured
                  (env.behave (i + 1 + j)) ar.host (env.timeAt (i + 1 + j)) ts).2
                    = Except.ok (false, false) := by
                have hidx : i + (j + 1) = i + 1 + j := by omega
                rw [hidx] at htc
                exact htc
              have hres := send_loop_refusal_stop env t ts rest (i + 1) j ar ha2 htc2
              have hidx : i + (j + 1) = i + 1 + j := by omega
              rw [hidx]
              refine ⟨by simpa using hres.1, hres.2.1, ?_⟩
              intro ev hev
              have hmem := hres.2.2 ev hev
              simp [hmem]
      · have key : send_loop env t ts (mx :: rest) i
            = (Event.mk "mailer" ("try mx server for send " ++ mx) ::
                (try_connect_server_and_send env.proxyConfigured (env.behave i) mx
                  (env.timeAt i) ts).1,
               [AttemptRecord.mk mx true tryAgain false], Except.ok true) := by
          simp [send_loop, h]
        rw [key] at ha
        cases j with
        | zero =>
          obtain rfl : AttemptRecord.mk mx true tryAgain false = ar := by simpa using ha
          simp only [Nat.add_zero] at htc
          rw [h] at htc
          simp at htc
        | succ j => simp at ha

/-- In the nonempty-MX branch, api_send_message passes through the loop's
attempt records and return value; the loop's events all land in the job's
event log, and the final state is sended on success and error on
failure. -/
theorem api_send_message_loop_facts (env : DeliveryEnv) (conf : ConfModel)
    (dns : DnsResponse) (mail : MailMsg) (dateStr : String) (item : RuntimeItem)
    (hmx : get_mx_server_address dns ≠ []) :
    (api_send_message env conf dns mail dateStr item).2.1
      = (send_loop env mail.sendTimeout item.tsAdded (get_mx_server_address dns) 0).2.1
    ∧ (api_send_message env conf dns mail dateStr item).2.2
      = (send_loop env mail.sendTimeout item.tsAdded (get_mx_server_address dns) 0).2.2
    ∧ (∀ ev ∈ (send_loop env mail.sendTimeout item.tsAdded (get_mx_server_address dns) 0).1,
        ev ∈ (api_send_message env conf dns mail dateStr item).1.events)
    ∧ ((send_loop env mail.sendTimeout item.tsAdded (get_mx_server_address dns) 0).2.2
          = Except.ok true →
        (api_send_message env conf dns mail dateStr item).1.state = "sended")
    ∧ ((send_loop env mail.sendTimeout item.tsAdded (get_mx_server_address dns) 0).2.2
          = Except.ok false →
        (api_send_message env conf dns mail dateStr item).1.state = "error") := by
  rcases hr : (send_loop env mail.sendTimeout item.tsAdded (get_mx_server_address dns) 0).2.2
    with e | bb
  · refine ⟨?_, ?_, ?_, ?_, ?_⟩
    · simp [api_send_message, hmx, hr]
    · simp [api_send_message, hmx, hr]
    · intro ev hev
      simp [api_send_message, hmx, hr, hev]
    · intro hcon
      simp at hcon
    · intro hcon
      simp at hcon
  · cases bb
    · refine ⟨?_, ?_, ?_, ?_, ?_⟩
      · simp [api_send_message, hmx, hr]
      · simp [api_send_message, hmx, hr]
      · intro ev hev
        simp [api_send_message, hmx, hr, hev]
      · intro hcon
        simp at hcon
      · intro _
        simp [api_send_message, hmx, hr]
    · refine ⟨?_, ?_, ?_, ?_, ?_⟩
      · simp [api_send_message, hmx, hr]
      · simp [api_send_message, hmx, hr]
      · intro ev hev
        simp [api_send_message, hmx, hr, hev]
      · intro _
        simp [api_send_message, hmx, hr]
      · intro hcon
        simp at hcon

/-- C1: For every job whose recipient domain resolves to a non-empty MX
list, and whose delivery returns normally, the delivery engine attempts
the MX hosts in the resolver's order, each list position at most once
(the attempted hosts are a prefix of the resolved list); each recorded
attempt is the value of the embedded SMTP attempt at that host, and its
timed-out flag is the strict comparison now - ts_added > send_timeout
made after an unsuccessful attempt; if that deadline check fires the loop
logs message send timeout reached, stops iterating (the attempt is the
last), sets the job's state to error and returns false; the call returns
true with state sended iff some attempt succeeded; and a false return
with every attempt transient and no deadline fired means the whole MX
list was consumed. -/
theorem api_send_message_mx_iteration (env : DeliveryEnv) (conf : ConfModel)
    (dns : DnsResponse) (mail : MailMsg) (dateStr : String) (item : RuntimeItem)
    (hmx : get_mx_server_address dns ≠ []) (b : Bool)
    (hret : (api_send_message env conf dns mail dateStr item).2.2 = Except.ok b) :
    ((api_send_message env conf dns mail dateStr item).2.1).map (fun a => a.host)
      = (get_mx_server_address dns).take
          ((api_send_message env conf dns mail dateStr item).2.1).length
    ∧ (b = true ↔ ∃ a ∈ (api_send_message env conf dns mail dateStr item).2.1, a.sent = true)
    ∧ (b = true ↔ (api_send_message env conf dns mail dateStr item).1.state = "sended")
    ∧ (∀ j ar, ((api_send_message env conf dns mail dateStr item).2.1).get? j = some ar →
        (try_connect_server_and_send env.proxyConfigured (env.behave j) ar.host
            (env.timeAt j) item.tsAdded).2 = Except.ok (ar.sent, ar.tryAgain)
        ∧ ar.timedOut = (!ar.sent && decide (env.timeAt j - item.tsAdded > mail.sendTimeout)))
    ∧ (∀ j ar, ((api_send_message env conf dns mail dateStr item).2.1).get? j = some ar →
        ar.timedOut = true →
        ((api_send_message env conf dns mail dateStr item).2.1).length = j + 1
        ∧ Event.mk "mailer" "message send timeout reached"
            ∈ (api_send_message env conf dns mail dateStr item).1.events
        ∧ (api_send_message env conf dns mail dateStr item).1.state = "error"
        ∧ b = false)
    ∧ (b = false →
        (∀ ar ∈ (api_send_message env conf dns mail dateStr item).2.1,
            ar.tryAgain = true ∧ ar.timedOut = false) →
        ((api_send_message env conf dns mail dateStr item).2.1).length
          = (get_mx_server_address dns).length) := by
  obtain ⟨he1, he2, he3, he4, he5⟩ :=
    api_send_message_loop_facts env conf dns mail dateStr item hmx
  have hloop : (send_loop env mail.sendTimeout item.tsAdded (get_mx_server_address dns) 0).2.2
      = Except.ok b := by
    rw [← he2]
    exact hret
  refine ⟨?_, ?_, ?_, ?_, ?_, ?_⟩
  · rw [he1]
    exact send_loop_hosts_take env mail.sendTimeout item.tsAdded (get_mx_server_address dns) 0
  · rw [he1]
    constructor
    · intro hb
      rw [hb] at hloop
      exact (send_loop_ok_iff_sent env mail.sendTimeout item.tsAdded
        (get_mx_server_address dns) 0).mp hloop
    · intro hex
      have hok := (send_loop_ok_iff_sent env mail.sendTimeout item.tsAdded
        (get_mx_server_address dns) 0).mpr hex
      rw [hloop] at hok
      simpa using hok
  · constructor
    · intro hb
      rw [hb] at hloop
      exact he4 hloop
    · intro hs
      cases b with
      | true => rfl
      | false =>
        have herr := he5 hloop
        rw [herr] at hs
        simp at hs
  · intro j ar har
    rw [he1] at har
    have hg := send_loop_ground env mail.sendTimeout item.tsAdded
      (get_mx_server_address dns) 0 b hloop j ar har
    exact ⟨by simpa using hg.1, by simpa using hg.2.1⟩
  · intro j ar har hto
    rw [he1] at har
    have hstop := send_loop_timeout_stop env mail.sendTimeout item.tsAdded
      (get_mx_server_address dns) 0 j ar har hto
    have hbf : b = false := by
      have := hstop.2.2
      rw [hloop] at this
      simpa using this.symm
    refine ⟨by rw [he1]; exact hstop.1, he3 _ hstop.2.1, he5 hstop.2.2, hbf⟩
  · intro hbf hall
    rw [hbf] at hloop
    rw [he1] at hall ⊢
    exact send_loop_exhausts env mail.sendTimeout item.tsAdded
      (get_mx_server_address dns) 0 hloop hall

/-- Witness for C1: with two resolved hosts and a first attempt that
succeeds, the call returns normally with true and the state is sended. -/
theorem api_send_message_mx_iteration_witness :
    get_mx_server_address dnsTwo ≠ []
    ∧ (api_send_message envOk confA dnsTwo mailA "d" itemA).2.2 = Except.ok true
    ∧ (api_send_message envOk confA dnsTwo mailA "d" itemA).1.state = "sended" :=
  ⟨by decide, rfl,
   (api_send_message_mx_iteration envOk confA dnsTwo mailA "d" itemA
      (by decide) true rfl).2.2.1.mp rfl⟩

/-- C2: For every delivery attempt in which the SMTP server returns a
non-empty per-recipient failure map, the engine logs mail have some
errors on send with the json of the map for that host, does not attempt
any further MX host (the attempt is the last even if more remain in the
resolved list), sets the job's state to error, and returns false. -/
theorem api_send_message_refusal_terminal (env : DeliveryEnv) (conf : ConfModel)
    (dns : DnsResponse) (mail : MailMsg) (dateStr : String) (item : RuntimeItem)
    (hmx : get_mx_server_address dns ≠ []) (j : Nat) (ar : AttemptRecord)
    (har : ((api_send_message env conf dns mail dateStr item).2.1).get? j = some ar)
    (hbeh : reachesRefusal (env.behave j) = true) :
    ((api_send_message env conf dns mail dateStr item).2.1).length = j + 1
    ∧ (api_send_message env conf dns mail dateStr item).2.2 = Except.ok false
    ∧ (api_send_message env conf dns mail dateStr item).1.state = "error"
    ∧ Event.mk "smtp" ("[" ++ ar.host ++ "] mail have some errors on send: "
        ++ failuresJson (env.behave j).sendResult)
        ∈ (api_send_message env conf dns mail dateStr item).1.events := by
  obtain ⟨he1, he2, he3, he4, he5⟩ :=
    api_send_message_loop_facts env conf dns mail dateStr item hmx
  have hrt := try_connect_refusal env.proxyConfigured (env.behave j) ar.host
    (env.timeAt j) item.tsAdded hbeh
  rw [he1] at har
  have htc : (try_connect_server_and_send env.proxyConfigured (env.behave (0 + j)) ar.host
      (env.timeAt (0 + j)) item.tsAdded).2 = Except.ok (false, false) := by
    simpa using hrt.1
  have hstop := send_loop_refusal_stop env mail.sendTimeout item.tsAdded
    (get_mx_server_address dns) 0 j ar har htc
  refine ⟨by rw [he1]; exact hstop.1, by rw [he2]; exact hstop.2.1, he5 hstop.2.1, ?_⟩
  have hin := hstop.2.2 (Event.mk "smtp" ("[" ++ ar.host ++ "] mail have some errors on send: "
      ++ failuresJson (env.behave j).sendResult)) (by simpa using hrt.2)
  exact he3 _ hin

/-- Witness for C2: a first host returning one per-recipient failure is
terminal with state error; the second resolved host is never attempted. -/
theorem api_send_message_refusal_terminal_witness :
    ((api_send_message
        (DeliveryEnv.mk false
          (fun _ => ServerBehavior.mk none none "" none 0 "" none [("user@x", 550, "no such")])
          (fun _ => 0))
        confA dnsTwo mailA "d" itemA).2.1).length = 0 + 1
    ∧ (api_send_message
        (DeliveryEnv.mk false
          (fun _ => ServerBehavior.mk none none "" none 0 "" none [("user@x", 550, "no such")])
          (fun _ => 0))
        confA dnsTwo mailA "d" itemA).1.state = "error" :=
  ⟨(api_send_message_refusal_terminal
      (DeliveryEnv.mk false
        (fun _ => ServerBehavior.mk none none "" none 0 "" none [("user@x", 550, "no such")])
        (fun _ => 0))
      confA dnsTwo mailA "d" itemA (by decide) 0
      (AttemptRecord.mk "mx1.example.com" false false false) rfl rfl).1,
   (api_send_message_refusal_terminal
      (DeliveryEnv.mk false
        (fun _ => ServerBehavior.mk none none "" none 0 "" none [("user@x", 550, "no such")])
        (fun _ => 0))
      confA dnsTwo mailA "d" itemA (by decide) 0
      (AttemptRecord.mk "mx1.example.com" false false false) rfl rfl).2.2.1⟩
